import Mathlib

/-
  Verification development for the vk_denoise_dlssrr sample.

  Shallow embedding of:
  - the primary ray-generation shader (primary.rgen): PSR mirror-following
    loop, guide-buffer emission, HDR direct lighting, indirect integrator loop;
  - the secondary miss shader (secondary.rmiss);
  - host-side frame orchestration (DlssApplet): frame counter, reset flag,
    output-size clamping (part_001);
  - the DLSS wrapper's matrix-convention pass-through (dlssrr_wrapper.cpp).

  GPU floating-point arithmetic is modelled over the rationals; external
  library calls (scene intersection, BSDF evaluation, environment sampling,
  random numbers, square root, ray offsetting) are abstracted as components
  of a RenderEnv record, so theorems quantify over every possible scene.
-/

namespace DlssSample

/-- Two-component vector over the rationals (GLSL vec2). -/
structure Vec2 where
  x : ℚ
  y : ℚ
deriving DecidableEq, Repr

/-- Three-component vector over the rationals (GLSL vec3). -/
structure Vec3 where
  x : ℚ
  y : ℚ
  z : ℚ
deriving DecidableEq, Repr

/-- Four-component vector over the rationals (GLSL vec4). -/
structure Vec4 where
  x : ℚ
  y : ℚ
  z : ℚ
  w : ℚ
deriving DecidableEq, Repr

instance : Zero Vec2 := ⟨⟨0, 0⟩⟩

instance : Add Vec2 := ⟨fun a b => ⟨a.x + b.x, a.y + b.y⟩⟩

/-- Componentwise maximum of two vec2 values (GLSL max). -/
def Vec2.max2 (a b : Vec2) : Vec2 := ⟨max a.x b.x, max a.y b.y⟩

instance : Zero Vec3 := ⟨⟨0, 0, 0⟩⟩

instance : One Vec3 := ⟨⟨1, 1, 1⟩⟩

instance : Add Vec3 := ⟨fun a b => ⟨a.x + b.x, a.y + b.y, a.z + b.z⟩⟩

instance : Mul Vec3 := ⟨fun a b => ⟨a.x * b.x, a.y * b.y, a.z * b.z⟩⟩

instance : Neg Vec3 := ⟨fun a => ⟨-a.x, -a.y, -a.z⟩⟩

instance : SMul ℚ Vec3 := ⟨fun q a => ⟨q * a.x, q * a.y, q * a.z⟩⟩

/-- Dot product of two vec3 values. -/
def Vec3.dot (a b : Vec3) : ℚ := a.x * b.x + a.y * b.y + a.z * b.z

/-- Broadcast a scalar into all three components. -/
def Vec3.const (q : ℚ) : Vec3 := ⟨q, q, q⟩

@[simp] theorem Vec3.one_mul_v (v : Vec3) : (1 : Vec3) * v = v := by
  cases v with
  | mk a b c =>
    show Vec3.mk (1 * a) (1 * b) (1 * c) = Vec3.mk a b c
    norm_num

@[simp] theorem Vec3.zero_add_v (v : Vec3) : (0 : Vec3) + v = v := by
  cases v with
  | mk a b c =>
    show Vec3.mk (0 + a) (0 + b) (0 + c) = Vec3.mk a b c
    norm_num

instance : Zero Vec4 := ⟨⟨0, 0, 0, 0⟩⟩

/-- Extend a vec3 to a homogeneous point (w = 1). -/
def Vec4.point (v : Vec3) : Vec4 := ⟨v.x, v.y, v.z, 1⟩

/-- Extend a vec3 to a homogeneous direction (w = 0), used for points at infinity. -/
def Vec4.dir (v : Vec3) : Vec4 := ⟨v.x, v.y, v.z, 0⟩

/-- Concatenate a vec3 with a scalar fourth channel (GLSL vec4(v, s)). -/
def Vec4.ofVec3 (v : Vec3) (s : ℚ) : Vec4 := ⟨v.x, v.y, v.z, s⟩

/-- First three channels of a vec4 (GLSL .xyz swizzle). -/
def Vec4.xyz (v : Vec4) : Vec3 := ⟨v.x, v.y, v.z⟩

@[simp] theorem Vec4.xyz_ofVec3 (v : Vec3) (s : ℚ) : (Vec4.ofVec3 v s).xyz = v := rfl

/-- 3x3 matrix over the rationals; entry mRC is row R, column C. -/
structure Mat3 where
  m00 : ℚ
  m01 : ℚ
  m02 : ℚ
  m10 : ℚ
  m11 : ℚ
  m12 : ℚ
  m20 : ℚ
  m21 : ℚ
  m22 : ℚ
deriving DecidableEq, Repr

/-- Identity 3x3 matrix (GLSL mat3(1.0)). -/
def Mat3.id : Mat3 := ⟨1, 0, 0, 0, 1, 0, 0, 0, 1⟩

/-- Matrix product of two 3x3 matrices. -/
def Mat3.mul (a b : Mat3) : Mat3 :=
  ⟨a.m00 * b.m00 + a.m01 * b.m10 + a.m02 * b.m20,
   a.m00 * b.m01 + a.m01 * b.m11 + a.m02 * b.m21,
   a.m00 * b.m02 + a.m01 * b.m12 + a.m02 * b.m22,
   a.m10 * b.m00 + a.m11 * b.m10 + a.m12 * b.m20,
   a.m10 * b.m01 + a.m11 * b.m11 + a.m12 * b.m21,
   a.m10 * b.m02 + a.m11 * b.m12 + a.m12 * b.m22,
   a.m20 * b.m00 + a.m21 * b.m10 + a.m22 * b.m20,
   a.m20 * b.m01 + a.m21 * b.m11 + a.m22 * b.m21,
   a.m20 * b.m02 + a.m21 * b.m12 + a.m22 * b.m22⟩

/-- Matrix-vector product of a 3x3 matrix and a vec3. -/
def Mat3.mulVec (a : Mat3) (v : Vec3) : Vec3 :=
  ⟨a.m00 * v.x + a.m01 * v.y + a.m02 * v.z,
   a.m10 * v.x + a.m11 * v.y + a.m12 * v.z,
   a.m20 * v.x + a.m21 * v.y + a.m22 * v.z⟩

/-- 4x4 matrix over the rationals; entry mRC is row R, column C. -/
structure Mat4 where
  m00 : ℚ
  m01 : ℚ
  m02 : ℚ
  m03 : ℚ
  m10 : ℚ
  m11 : ℚ
  m12 : ℚ
  m13 : ℚ
  m20 : ℚ
  m21 : ℚ
  m22 : ℚ
  m23 : ℚ
  m30 : ℚ
  m31 : ℚ
  m32 : ℚ
  m33 : ℚ
deriving DecidableEq, Repr

/-- Matrix-vector product of a 4x4 matrix and a vec4. -/
def Mat4.mulVec (a : Mat4) (v : Vec4) : Vec4 :=
  ⟨a.m00 * v.x + a.m01 * v.y + a.m02 * v.z + a.m03 * v.w,
   a.m10 * v.x + a.m11 * v.y + a.m12 * v.z + a.m13 * v.w,
   a.m20 * v.x + a.m21 * v.y + a.m22 * v.z + a.m23 * v.w,
   a.m30 * v.x + a.m31 * v.y + a.m32 * v.z + a.m33 * v.w⟩

/-- Transpose of a 4x4 matrix. -/
def Mat4.transpose (a : Mat4) : Mat4 :=
  ⟨a.m00, a.m10, a.m20, a.m30,
   a.m01, a.m11, a.m21, a.m31,
   a.m02, a.m12, a.m22, a.m32,
   a.m03, a.m13, a.m23, a.m33⟩

/-- The hit-distance sentinel: FP16 maximum, 65504 (dlss_helper.glsl,
DLSS_INF_DISTANCE). Magnitude means "no intersection". -/
def DLSS_INF_DISTANCE : ℚ := 65504

/-- Modelled from the spec: the "small fixed threshold" for mirror
classification. The constant itself lives in the external nvvkhl header
pbr_mat_eval.h (not part of this repository); only its existence as a small
positive constant matters to the claims. -/
def MICROFACET_MIN_ROUGHNESS : ℚ := 0.0014142

/-- The mirror-classification roughness limit from primary.rgen line 347:
MICROFACET_MIN_ROUGHNESS squared plus 0.001. -/
def mirrorRoughnessLimit : ℚ := MICROFACET_MIN_ROUGHNESS * MICROFACET_MIN_ROUGHNESS + 0.001

/-- Modelled from the spec: the power-heuristic MIS weight
"pdf_light^2 / (pdf_light^2 + pdf_bsdf^2)" (spec 4.2); the helper itself is
in the external nvvkhl func.h, not part of this repository. -/
def powerHeuristic (a b : ℚ) : ℚ := (a * a) / (a * a + b * b)

/-- Modelled from the spec: the tone compression applied to sky radiance
before it is baked into the diffuse-albedo guide buffer ("a tone-compressed,
non-negative version of the environment radiance"). The helper reinhardMax
lives in the external nvvkhl tonemap header; it divides by one plus the
maximum component. -/
def reinhardMax (c : Vec3) : Vec3 :=
  ⟨c.x / (1 + max c.x (max c.y c.z)),
   c.y / (1 + max c.x (max c.y c.z)),
   c.z / (1 + max c.x (max c.y c.z))⟩

/-- Modelled from the spec: "the reflection implied by this surface's
normal" composed onto the running mirror transform (spec 4.1); the helper
buildMirrorMatrix is in ray_common.glsl which is shared tooling outside
src. A reflection about the plane with unit normal n is I - 2 n n^T. -/
def buildMirrorMatrix (n : Vec3) : Mat3 :=
  ⟨1 - 2 * n.x * n.x, -(2 * n.x * n.y), -(2 * n.x * n.z),
   -(2 * n.y * n.x), 1 - 2 * n.y * n.y, -(2 * n.y * n.z),
   -(2 * n.z * n.x), -(2 * n.z * n.y), 1 - 2 * n.z * n.z⟩

/-- GLSL clamp(x, 0.0, 1.0) (saturate in dlss_helper.glsl). -/
def saturate (x : ℚ) : ℚ := min (max x 0) 1

/-- Componentwise saturate of a vec3. -/
def saturate3 (v : Vec3) : Vec3 := ⟨saturate v.x, saturate v.y, saturate v.z⟩

/-- PositiveRcp from dlss_helper.glsl: reciprocal guarded by FLT_MIN = 1e-15. -/
def PositiveRcp (x : ℚ) : ℚ := 1 / max x (1e-15 : ℚ)

/-- dot(mul(M, v), w) for a GLSL mat2 given by its constructor arguments
mat2(a, b, c, d): columns (a,b) and (c,d). -/
def dotMul2 (a b c d v0 v1 w0 w1 : ℚ) : ℚ :=
  (a * v0 + c * v1) * w0 + (b * v0 + d * v1) * w1

/-- dot(mul(M, v), w) for a GLSL mat3 given by its constructor arguments
mat3(a, b, c, d, e, f, g, h, i): columns (a,b,c), (d,e,f), (g,h,i). -/
def dotMul3 (a b c d e f g h i v0 v1 v2 w0 w1 w2 : ℚ) : ℚ :=
  (a * v0 + d * v1 + g * v2) * w0 + (b * v0 + e * v1 + h * v2) * w1
    + (c * v0 + f * v1 + i * v2) * w2

/-- EnvironmentTerm_Rtg from dlss_helper.glsl: pre-integrated environment
specular term ("Ray Tracing Gems" chapter 32, equation 4). -/
def EnvironmentTerm_Rtg (Rf0 : Vec3) (NoV alphaRoughness : ℚ) : Vec3 :=
  let x1 := NoV
  let x2 := NoV * NoV
  let x3 := NoV * x2
  let y1 := alphaRoughness
  let y3 := y1 * (y1 * y1)
  let bias := dotMul2 0.99044 (-1.28514) 1.29678 (-0.755907) 1 x1 1 y1
    * PositiveRcp (dotMul3 1.0 2.92338 59.4188 20.3225 (-27.0302) 222.592
        121.563 626.13 316.627 1 x1 x3 1 y1 y3)
  let scale := dotMul2 0.0365463 3.32707 9.0632 (-9.04756) 1 x1 1 y1
    * PositiveRcp (dotMul3 1.0 3.59685 (-1.36772) 9.04401 (-16.3174) 9.22949
        5.56589 19.7886 (-20.2123) 1 x2 x3 1 y1 y3)
  saturate3 (scale • Rf0 + Vec3.const bias)

/-- BSDF sampling event kinds (nvvkhl bsdf_functions.h), restricted to the
constants the shaders branch on. -/
inductive BsdfEvent where
  | absorb
  | diffuse
  | glossyReflection
  | other
deriving DecidableEq, Repr

/-- Result of bsdfSample: event kind, throughput ratio bsdf_over_pdf, the
sampled continuation direction k2 and its pdf. -/
structure BsdfSample where
  eventType : BsdfEvent
  bsdfOverPdf : Vec3
  k2 : Vec3
  pdf : ℚ
deriving DecidableEq, Repr

/-- Result of bsdfEvaluate: diffuse and glossy BSDF values and the BSDF's
own pdf for the evaluated direction. -/
structure BsdfEval where
  bsdfDiffuse : Vec3
  bsdfGlossy : Vec3
  pdf : ℚ
deriving DecidableEq, Repr

/-- A sampled light direction with its radiance and sampling pdf, as
returned by samplePhysicalSky or environmentSample (already rotated into
world space). -/
structure LightSample where
  direction : Vec3
  radiance : Vec3
  pdf : ℚ
deriving DecidableEq, Repr

/-- Everything primary.rgen knows about a surface hit after
buildHitInfo: the ray hit distance (payload.hitT) and the evaluated
PBR material and hit frame. Roughness is the vec2 pbrMat.roughness after
the push-constant overrides; the path-regularization update is applied
separately in the loop body where the source applies it. -/
structure SurfaceHit where
  hitT : ℚ
  roughness : Vec2
  metallic : ℚ
  emissive : Vec3
  baseColor : Vec3
  specularColor : Vec3
  opacity : ℚ
  n : Vec3
  ng : Vec3
deriving DecidableEq, Repr

/-- The value of an uninitialized pbrMat local (the shader reads
pbrMat.metallic on the direct-sky path without ever writing it; the model
fixes the unspecified value at zero). -/
def SurfaceHit.init : SurfaceHit :=
  ⟨0, ⟨0, 0⟩, 0, 0, 0, 0, 0, 0, 0⟩

/-- Outcome of tracing a primary ray (primary SBT): either the primary miss
shader ran and produced environment radiance (payload.hitT becomes
DLSS_INF_DISTANCE), or a surface was hit. -/
inductive PrimaryTraceResult where
  | miss (envRadiance : Vec3)
  | hit (s : SurfaceHit)

/-- PayloadSecondary (ray_common.glsl): the pathtrace payload carried across
secondary ray segments. -/
structure PayloadSecondary where
  contrib : Vec3
  weight : Vec3
  hitT : ℚ
  rayOrigin : Vec3
  rayDirection : Vec3
  bsdfPDF : ℚ
  seed : ℕ
  maxRoughness : Vec2

/-- The scene, material system and math library the shaders call into,
abstracted as deterministic functions so that theorems quantify over every
scene. secondaryHit returns the closest-hit shader's payload transformation
when the secondary ray hits geometry, and none when it escapes to the
environment (in which case the embedded secondary.rmiss model runs).
envEvalSecondary is the environment lookup of secondary.rmiss, before the
intensity multiplier; its Bool argument is the FLAGS_ENVMAP_SKY flag. -/
structure RenderEnv where
  tracePrimary : Vec3 → Vec3 → PrimaryTraceResult
  offsetRay : Vec3 → Vec3 → Vec3
  rand : ℕ → ℚ × ℕ
  bsdfSample : SurfaceHit → Vec3 → ℚ × ℚ × ℚ → BsdfSample
  bsdfEvaluate : SurfaceHit → Vec3 → Vec3 → ℚ × ℚ × ℚ → BsdfEval
  samplePhysicalSky : ℚ × ℚ → LightSample
  environmentSample : ℚ × ℚ × ℚ → LightSample
  shadowHitT : Vec3 → Vec3 → ℚ
  secondaryHit : Vec3 → Vec3 → Option (PayloadSecondary → PayloadSecondary)
  envEvalSecondary : Bool → Vec3 → Vec3 × ℚ
  sqrtQ : ℚ → ℚ

/-- Per-frame constants read by the shaders, with the flag bitmask
represented as named booleans (FLAGS_ENVMAP_SKY, FLAGS_USE_PSR,
FLAGS_USE_PATH_REGULARIZATION). -/
structure FrameInfo where
  view : Mat4
  prevMVP : Mat4
  envIntensity : Vec3
  useSky : Bool
  usePsr : Bool
  useRegularization : Bool

/-- secondary.rmiss main (lines 42-70): on a secondary miss the environment
is evaluated for the ray direction, scaled by the intensity, MIS-weighted by
the power heuristic of the payload's BSDF pdf against the environment pdf,
and the hit distance is set to the negated sentinel. -/
def secondaryMissShader (envIntensity envColor : Vec3) (envPdf : ℚ)
    (p : PayloadSecondary) : PayloadSecondary :=
  { p with
    contrib := powerHeuristic p.bsdfPDF envPdf • (envColor * envIntensity)
    hitT := -DLSS_INF_DISTANCE }

/-- One secondary traceRayEXT: the closest-hit shader runs on a hit, the
secondary miss shader otherwise. -/
def traceSecondary (env : RenderEnv) (useSky : Bool) (envIntensity : Vec3)
    (p : PayloadSecondary) : PayloadSecondary :=
  match env.secondaryHit p.rayOrigin p.rayDirection with
  | some f => f p
  | none =>
    let cp := env.envEvalSecondary useSky p.rayDirection
    secondaryMissShader envIntensity cp.1 cp.2 p

/-- The indirect bounce loop of primary.rgen (lines 505-526): for
depth = 1 .. maxDepth-1, trace a segment, merge contrib * throughput,
update the throughput, record the first segment's hit distance when the
first sampling event was a glossy reflection, and stop when the returned
hit distance is negative. Returns (radiance, pathLength, final payload). -/
def indirectLoopGo (env : RenderEnv) (useSky : Bool) (envIntensity : Vec3)
    (firstEvent : BsdfEvent) (maxDepth depth : ℕ) (radiance throughput : Vec3)
    (pathLength : ℚ) (p : PayloadSecondary) : Vec3 × ℚ × PayloadSecondary :=
  if _h : depth < maxDepth then
    let p1 := traceSecondary env useSky envIntensity { p with hitT := DLSS_INF_DISTANCE }
    let radiance1 := radiance + p1.contrib * throughput
    let throughput1 := throughput * p1.weight
    let pathLength1 :=
      if depth = 1 ∧ firstEvent = BsdfEvent.glossyReflection then |p1.hitT| else pathLength
    if p1.hitT < 0 then (radiance1, pathLength1, p1)
    else indirectLoopGo env useSky envIntensity firstEvent maxDepth (depth + 1)
      radiance1 throughput1 pathLength1 p1
  else (radiance, pathLength, p)
termination_by maxDepth - depth

/-- The three rand(payload.seed) draws taken at the start of HdrContrib
(and again for each bsdfSample call). -/
def rand3 (env : RenderEnv) (seed : ℕ) : (ℚ × ℚ × ℚ) × ℕ :=
  let r1 := env.rand seed
  let r2 := env.rand r1.2
  let r3 := env.rand r2.2
  ((r1.1, r2.1, r3.1), r3.2)

/-- Light-direction sampling at the top of HdrContrib (primary.rgen lines
157-173): physical sky or importance-sampled environment texture, selected
by FLAGS_ENVMAP_SKY. -/
def hdrLightSample (env : RenderEnv) (useSky : Bool) (xi : ℚ × ℚ × ℚ) : LightSample :=
  if useSky then env.samplePhysicalSky (xi.1, xi.2.1) else env.environmentSample xi

/-- HdrContrib (primary.rgen lines 147-216): MIS-weighted direct
environment lighting at a shading point. Directions below the shading
plane, zero light pdf, or zero BSDF pdf contribute nothing; an occluded
shadow ray (hit distance magnitude not the sentinel) also contributes
nothing. Returns the radiance and the advanced random seed. -/
def HdrContrib (env : RenderEnv) (useSky : Bool) (envIntensity : Vec3)
    (pbrMat : SurfaceHit) (startPos toEye : Vec3) (seed : ℕ) : Vec3 × ℕ :=
  let rv := rand3 env seed
  let ls := hdrLightSample env useSky rv.1
  let lightContrib := ls.radiance * envIntensity
  let dotNL := Vec3.dot ls.direction pbrMat.n
  if dotNL > 0 ∧ ls.pdf > 0 then
    let be := env.bsdfEvaluate pbrMat toEye ls.direction rv.1
    if be.pdf > 0 then
      let misWeight := powerHeuristic ls.pdf be.pdf
      let lightRadiance := (misWeight / ls.pdf) • lightContrib
      let radiance := (be.bsdfDiffuse + be.bsdfGlossy) * lightRadiance
      if |env.shadowHitT startPos ls.direction| = DLSS_INF_DISTANCE
      then (radiance, rv.2) else (0, rv.2)
    else (0, rv.2)
  else (0, rv.2)

/-- DirectLight (primary.rgen lines 102-142): with NB_LIGHTS = 0 the whole
loop is compiled out and the contribution is zero. -/
def DirectLight : Vec3 := 0

/-- The ephemeral per-pixel state of the PSR loop in primary.rgen main,
plus the current material (pbrMat), hit position, random seed and the
global maxRoughness accumulator. traces counts traceRayEXT calls. -/
structure PsrState where
  origin : Vec3
  direction : Vec3
  seed : ℕ
  hitSky : Bool
  isPsr : Bool
  psrHitDist : ℚ
  psrThroughput : Vec3
  psrDirectRadiance : Vec3
  psrMirror : Mat3
  psrDepth : ℕ
  mat : SurfaceHit
  hitPos : Vec3
  maxRoughness : Vec2
  traces : ℕ

/-- The path-regularization tail of buildHitInfo (primary.rgen lines
254-258): when FLAGS_USE_PATH_REGULARIZATION is set, the global
maxRoughness is raised to the material's roughness and the material's
roughness is replaced by it. Returns the new accumulator and material. -/
def regularize (useReg : Bool) (maxR : Vec2) (m : SurfaceHit) : Vec2 × SurfaceHit :=
  if useReg then
    let mr := Vec2.max2 maxR m.roughness
    (mr, { m with roughness := mr })
  else (maxR, m)

/-- One iteration of the PSR do-while body (primary.rgen lines 315-381).
Returns the updated state and whether the source reached the bottom of the
loop body (no break), i.e. whether the do-while continues subject to
psrDepth < 5. -/
def psrBody (env : RenderEnv) (fi : FrameInfo) (s : PsrState) : PsrState × Bool :=
  match env.tracePrimary s.origin s.direction with
  | .miss envRadiance =>
    ({ s with
        hitSky := true
        psrDirectRadiance := s.psrDirectRadiance + s.psrThroughput * envRadiance
        traces := s.traces + 1 }, false)
  | .hit h =>
    let rm := regularize fi.useRegularization s.maxRoughness h
    let mat := rm.2
    let pos := s.origin + h.hitT • s.direction
    let s1 : PsrState :=
      { s with
        traces := s.traces + 1
        psrHitDist := s.psrHitDist + h.hitT
        maxRoughness := rm.1
        mat := mat
        hitPos := pos
        origin := env.offsetRay pos mat.ng }
    if mat.roughness.x > mirrorRoughnessLimit ∨ mat.metallic < 1 ∨ fi.usePsr = false then
      (s1, false)
    else
      let s2 := { s1 with
        isPsr := true
        psrDirectRadiance := s1.psrDirectRadiance + s1.psrThroughput * mat.emissive }
      let rv := rand3 env s2.seed
      let smp := env.bsdfSample mat (-s2.direction) rv.1
      let s3 := { s2 with seed := rv.2 }
      if smp.eventType ≠ BsdfEvent.glossyReflection then
        ({ s3 with mat := { mat with baseColor := ⟨10, 0, 10⟩ } }, false)
      else
        ({ s3 with
            psrThroughput := s3.psrThroughput * smp.bsdfOverPdf
            psrMirror := s3.psrMirror.mul (buildMirrorMatrix mat.n)
            direction := smp.k2
            psrDepth := s3.psrDepth + 1 }, true)

theorem psrBody_cont_depth (env : RenderEnv) (fi : FrameInfo) (s : PsrState) :
    (psrBody env fi s).2 = true → (psrBody env fi s).1.psrDepth = s.psrDepth + 1 := by
  unfold psrBody
  split
  · simp
  · dsimp only
    split
    · simp
    · split
      · simp
      · simp

theorem psrBody_traces (env : RenderEnv) (fi : FrameInfo) (s : PsrState) :
    (psrBody env fi s).1.traces = s.traces + 1 := by
  unfold psrBody
  split
  · simp
  · dsimp only
    split
    · simp
    · split
      · simp
      · simp

/-- The PSR do-while loop (primary.rgen lines 315-381): run the body, and
loop while the body reached its bottom and psrDepth < 5. -/
def psrLoop (env : RenderEnv) (fi : FrameInfo) (s : PsrState) : PsrState :=
  if h : (psrBody env fi s).2 = true ∧ (psrBody env fi s).1.psrDepth < 5 then
    psrLoop env fi (psrBody env fi s).1
  else (psrBody env fi s).1
termination_by 5 - s.psrDepth
decreasing_by
  have hd := psrBody_cont_depth env fi s h.1
  omega

/-- The state update common to every surface hit in the PSR loop: count the
trace, accumulate the hit distance, apply path regularization, record the
material and hit position, and move the ray origin to the offset hit point. -/
def psrHitState (env : RenderEnv) (useReg : Bool) (s : PsrState) (h : SurfaceHit) : PsrState :=
  let rm := regularize useReg s.maxRoughness h
  let pos := s.origin + h.hitT • s.direction
  { s with
    traces := s.traces + 1
    psrHitDist := s.psrHitDist + h.hitT
    maxRoughness := rm.1
    mat := rm.2
    hitPos := pos
    origin := env.offsetRay pos rm.2.ng }

theorem psrBody_miss (env : RenderEnv) (fi : FrameInfo) (s : PsrState) (envRad : Vec3)
    (htr : env.tracePrimary s.origin s.direction = PrimaryTraceResult.miss envRad) :
    psrBody env fi s =
      ({ s with
          hitSky := true
          psrDirectRadiance := s.psrDirectRadiance + s.psrThroughput * envRad
          traces := s.traces + 1 }, false) := by
  simp only [psrBody, htr]

theorem psrBody_break (env : RenderEnv) (fi : FrameInfo) (s : PsrState) (h : SurfaceHit)
    (htr : env.tracePrimary s.origin s.direction = PrimaryTraceResult.hit h)
    (hc : (regularize fi.useRegularization s.maxRoughness h).2.roughness.x > mirrorRoughnessLimit
      ∨ (regularize fi.useRegularization s.maxRoughness h).2.metallic < 1
      ∨ fi.usePsr = false) :
    psrBody env fi s = (psrHitState env fi.useRegularization s h, false) := by
  simp only [psrBody, htr]
  rw [if_pos hc]
  rfl

theorem psrBody_mirror (env : RenderEnv) (fi : FrameInfo) (s : PsrState) (h : SurfaceHit)
    (htr : env.tracePrimary s.origin s.direction = PrimaryTraceResult.hit h)
    (hc : ¬((regularize fi.useRegularization s.maxRoughness h).2.roughness.x > mirrorRoughnessLimit
      ∨ (regularize fi.useRegularization s.maxRoughness h).2.metallic < 1
      ∨ fi.usePsr = false))
    (hglossy : (env.bsdfSample (regularize fi.useRegularization s.maxRoughness h).2
        (-s.direction) (rand3 env s.seed).1).eventType = BsdfEvent.glossyReflection) :
    psrBody env fi s =
      ({ psrHitState env fi.useRegularization s h with
          isPsr := true
          psrDirectRadiance := s.psrDirectRadiance
            + s.psrThroughput * (regularize fi.useRegularization s.maxRoughness h).2.emissive
          seed := (rand3 env s.seed).2
          psrThroughput := s.psrThroughput * (env.bsdfSample
            (regularize fi.useRegularization s.maxRoughness h).2
            (-s.direction) (rand3 env s.seed).1).bsdfOverPdf
          psrMirror := s.psrMirror.mul
            (buildMirrorMatrix (regularize fi.useRegularization s.maxRoughness h).2.n)
          direction := (env.bsdfSample (regularize fi.useRegularization s.maxRoughness h).2
            (-s.direction) (rand3 env s.seed).1).k2
          psrDepth := s.psrDepth + 1 }, true) := by
  simp only [psrBody, htr]
  rw [if_neg hc, if_neg (by simp [hglossy])]
  rfl

theorem psrLoop_stop (env : RenderEnv) (fi : FrameInfo) (s : PsrState)
    (h : (psrBody env fi s).2 = false) : psrLoop env fi s = (psrBody env fi s).1 := by
  rw [psrLoop]
  simp [h]

theorem psrLoop_cont (env : RenderEnv) (fi : FrameInfo) (s : PsrState)
    (h1 : (psrBody env fi s).2 = true) (h2 : (psrBody env fi s).1.psrDepth < 5) :
    psrLoop env fi s = psrLoop env fi (psrBody env fi s).1 := by
  rw [psrLoop]
  simp [h1, h2]

/-- Initial per-pixel state at the top of primary.rgen main (lines
300-314). -/
def psrInit (eyePos orgDirection : Vec3) (seed0 : ℕ) : PsrState :=
  { origin := eyePos
    direction := orgDirection
    seed := seed0
    hitSky := false
    isPsr := false
    psrHitDist := 0
    psrThroughput := 1
    psrDirectRadiance := 0
    psrMirror := Mat3.id
    psrDepth := 0
    mat := SurfaceHit.init
    hitPos := 0
    maxRoughness := 0
    traces := 0 }

/-- STEP 1 of primary.rgen main: the whole PSR loop from the initial
per-pixel state. -/
def psrMain (env : RenderEnv) (fi : FrameInfo) (eyePos orgDirection : Vec3)
    (seed0 : ℕ) : PsrState :=
  psrLoop env fi (psrInit eyePos orgDirection seed0)

/-- computeCameraMotionVector (primary.rgen lines 263-270): project the
motion origin by the previous frame's view-projection, perspective-divide,
map to pixel coordinates and subtract the current pixel center. -/
def computeCameraMotionVector (prevMVP : Mat4) (pixelCenter launchSize : Vec2)
    (motionOrigin : Vec4) : Vec2 :=
  let oldPos := prevMVP.mulVec motionOrigin
  let ox := oldPos.x / oldPos.w
  let oy := oldPos.y / oldPos.w
  ⟨(ox * (1 / 2) + 1 / 2) * launchSize.x - pixelCenter.x,
   (oy * (1 / 2) + 1 / 2) * launchSize.y - pixelCenter.y⟩

/-- The per-pixel guide-buffer and color writes of one primary.rgen
invocation. -/
structure GBufOut where
  color : Vec4
  specAlbedo : Vec4
  baseColorMetalness : Vec4
  normalRoughness : Vec4
  viewZ : ℚ
  specHitDist : ℚ
  motion : Vec2

/-- Guide-buffer emission and STEPs 2-3 of primary.rgen main (lines
383-549), given the state left by the PSR loop. The FrameInfo fields this
part reads are passed explicitly: view, prevMVP, the sky flag and the
environment intensity. -/
def gbufEmit (env : RenderEnv) (view prevMVP : Mat4) (useSky : Bool)
    (envIntensity : Vec3) (eyePos orgDirection : Vec3)
    (pixelCenter launchSize : Vec2) (maxDepth : ℕ) (s : PsrState) : GBufOut :=
  let virtualOrigin := eyePos + s.psrHitDist • orgDirection
  let viewDepth := -(view.mulVec (Vec4.point virtualOrigin)).z
  if s.hitSky = true then
    let viewZ := if s.isPsr = false then DLSS_INF_DISTANCE else viewDepth
    let motionOrigin := if s.isPsr = false then Vec4.dir orgDirection
      else Vec4.point virtualOrigin
    { color := Vec4.ofVec3 s.psrDirectRadiance 1
      specAlbedo := 0
      baseColorMetalness := Vec4.ofVec3 (reinhardMax s.psrDirectRadiance) s.mat.metallic
      normalRoughness := 0
      viewZ := viewZ
      specHitDist := 0
      motion := computeCameraMotionVector prevMVP pixelCenter launchSize motionOrigin }
  else
    let worldNormal := s.psrMirror.mulVec s.mat.n
    let normalRoughness := Vec4.ofVec3 worldNormal (env.sqrtQ s.mat.roughness.x)
    let mat := { s.mat with
      baseColor := s.mat.baseColor * s.psrThroughput
      specularColor := s.mat.specularColor * s.psrThroughput
      emissive := s.mat.emissive * s.psrThroughput + s.psrDirectRadiance }
    let motion := computeCameraMotionVector prevMVP pixelCenter launchSize
      (Vec4.point virtualOrigin)
    let toEye := -s.direction
    let baseColorMetalness := Vec4.ofVec3 mat.baseColor mat.metallic
    let hdr := HdrContrib env useSky envIntensity mat s.hitPos toEye s.seed
    let directLum := DirectLight + s.psrDirectRadiance + mat.emissive
    let rv := rand3 env hdr.2
    let sampleData := env.bsdfSample mat toEye rv.1
    let stepRes :=
      if sampleData.eventType ≠ BsdfEvent.absorb then
        let p0 : PayloadSecondary :=
          { contrib := 0
            weight := 1
            hitT := DLSS_INF_DISTANCE
            rayOrigin := s.origin
            rayDirection := sampleData.k2
            bsdfPDF := sampleData.pdf
            seed := rv.2
            maxRoughness := s.maxRoughness }
        let r := indirectLoopGo env useSky envIntensity sampleData.eventType maxDepth 1
          hdr.1 sampleData.bsdfOverPdf 0 p0
        (r.1, r.2.1)
      else (hdr.1, (0 : ℚ))
    let fenv :=
      if sampleData.eventType ≠ BsdfEvent.diffuse then
        EnvironmentTerm_Rtg mat.specularColor (max (Vec3.dot toEye mat.n) 0) mat.roughness.x
      else 0
    { color := Vec4.ofVec3 (stepRes.1 + directLum) mat.opacity
      specAlbedo := Vec4.ofVec3 fenv 0
      baseColorMetalness := baseColorMetalness
      normalRoughness := normalRoughness
      viewZ := viewDepth
      specHitDist := stepRes.2
      motion := motion }

/-- primary.rgen main for one pixel: PSR loop, then guide-buffer emission
and the direct and indirect lighting estimators. -/
def mainShader (env : RenderEnv) (fi : FrameInfo) (eyePos orgDirection : Vec3)
    (pixelCenter launchSize : Vec2) (maxDepth : ℕ) (seed0 : ℕ) : GBufOut :=
  gbufEmit env fi.view fi.prevMVP fi.useSky fi.envIntensity eyePos orgDirection
    pixelCenter launchSize maxDepth (psrMain env fi eyePos orgDirection seed0)

end DlssSample

namespace DlssApplet

/-- DlssApplet::resetFrame (part_001 line 1118): set the frame counter to 0. -/
def resetFrame (_m : ℕ) : ℕ := 0

/-- One DlssApplet::onRender call as seen by the frame counter (part_001
lines 762 and 777): the denoiser is invoked with reset = (m_frame == 0) and
the counter is incremented once at the end of the frame. Returns the new
counter and the reset flag that was passed to the denoiser. -/
def onRenderFrame (m : ℕ) : ℕ × Bool := (m + 1, decide (m = 0))

/-- Frame counter after k rendered frames starting from counter m. -/
def renderSeq (m : ℕ) : ℕ → ℕ
  | 0 => m
  | k + 1 => (onRenderFrame (renderSeq m k)).1

/-- The render-resolution-change UI path (part_001 lines 556-559 and 621):
m_renderSize is updated, the DLSS context is re-created, and resetFrame()
runs before the next frame. Only the frame counter matters here. -/
def onRenderResolutionChange (m : ℕ) : ℕ := resetFrame m

/-- Session events that touch the frame counter: a completed rendered frame,
or any reset-triggering event (file drop, DLSS quality/preset/size change,
camera or material edits), all of which call resetFrame(). -/
inductive AppEvent where
  | render
  | reset
deriving DecidableEq, Repr

/-- Effect of one session event on the frame counter. -/
def appStep (m : ℕ) : AppEvent → ℕ
  | .render => (onRenderFrame m).1
  | .reset => resetFrame m

/-- Frame counter after a list of session events. -/
def appRun (m : ℕ) : List AppEvent → ℕ
  | [] => m
  | e :: es => appRun (appStep m e) es

/-- The sequence of frame-counter values observed along a session,
starting value included. -/
def appTrace (m : ℕ) : List AppEvent → List ℕ
  | [] => [m]
  | e :: es => m :: appTrace (appStep m e) es

/-- DlssApplet::onResize (part_001 lines 322-333): the requested output size
is clamped componentwise to at least 256 x 256 (glm::max) before the output
G-buffer is re-created and DLSS is re-initialized. -/
def onResizeOutputSize (w h : ℕ) : ℕ × ℕ := (max 256 w, max 256 h)

end DlssApplet

namespace DlssRRWrapper

open DlssSample

/-- DlssRR::denoise (dlssrr_wrapper.cpp lines 374-380): the host's
column-major right-multiply view matrix is handed to DLSS unmodified
(evalParams.pInWorldToViewMatrix = value_ptr(modelView)). -/
def denoisePassedViewMatrix (modelView : Mat4) : Mat4 := modelView

/-- DlssRR::denoise (dlssrr_wrapper.cpp lines 374-380): the host's
projection matrix is handed to DLSS unmodified
(evalParams.pInViewToClipMatrix = value_ptr(projection)). -/
def denoisePassedProjMatrix (projection : Mat4) : Mat4 := projection

end DlssRRWrapper

namespace DlssSample

theorem psrLoop_traces_upper (env : RenderEnv) (fi : FrameInfo) :
    ∀ (n : ℕ) (s : PsrState), 5 - s.psrDepth ≤ n → s.psrDepth < 5 →
      (psrLoop env fi s).traces ≤ s.traces + (5 - s.psrDepth) := by
  intro n
  induction n with
  | zero =>
    intro s h1 h2
    omega
  | succ n ih =>
    intro s h1 h2
    rw [psrLoop]
    split
    case isTrue hcond =>
      have hd := psrBody_cont_depth env fi s hcond.1
      have ht := psrBody_traces env fi s
      have hrec := ih (psrBody env fi s).1 (by omega) hcond.2
      omega
    case isFalse hcond =>
      have ht := psrBody_traces env fi s
      omega

theorem psrLoop_traces_lower (env : RenderEnv) (fi : FrameInfo) :
    ∀ (n : ℕ) (s : PsrState), 5 - s.psrDepth ≤ n →
      s.traces + 1 ≤ (psrLoop env fi s).traces := by
  intro n
  induction n with
  | zero =>
    intro s h1
    rw [psrLoop]
    split
    case isTrue hcond =>
      have hd := psrBody_cont_depth env fi s hcond.1
      omega
    case isFalse hcond =>
      have ht := psrBody_traces env fi s
      omega
  | succ n ih =>
    intro s h1
    rw [psrLoop]
    split
    case isTrue hcond =>
      have hd := psrBody_cont_depth env fi s hcond.1
      have ht := psrBody_traces env fi s
      have hrec := ih (psrBody env fi s).1 (by omega)
      omega
    case isFalse hcond =>
      have ht := psrBody_traces env fi s
      omega

theorem psrMain_miss (env : RenderEnv) (fi : FrameInfo) (eyePos orgDirection : Vec3)
    (seed0 : ℕ) (envRad : Vec3)
    (hm : env.tracePrimary eyePos orgDirection = PrimaryTraceResult.miss envRad) :
    psrMain env fi eyePos orgDirection seed0 =
      { psrInit eyePos orgDirection seed0 with
          hitSky := true
          psrDirectRadiance := envRad
          traces := 1 } := by
  unfold psrMain
  have hb := psrBody_miss env fi (psrInit eyePos orgDirection seed0) envRad hm
  rw [psrLoop_stop env fi _ (by rw [hb]), hb]
  simp [psrInit]

theorem reinhardMax_bounds (v : Vec3) (hx : 0 ≤ v.x) (hy : 0 ≤ v.y) (hz : 0 ≤ v.z) :
    (0 ≤ (reinhardMax v).x ∧ 0 ≤ (reinhardMax v).y ∧ 0 ≤ (reinhardMax v).z)
      ∧ ((reinhardMax v).x ≤ v.x ∧ (reinhardMax v).y ≤ v.y ∧ (reinhardMax v).z ≤ v.z)
      ∧ ((reinhardMax v).x < 1 ∧ (reinhardMax v).y < 1 ∧ (reinhardMax v).z < 1) := by
  have hmx : v.x ≤ max v.x (max v.y v.z) := le_max_left _ _
  have hmy : v.y ≤ max v.x (max v.y v.z) := le_trans (le_max_left _ _) (le_max_right _ _)
  have hmz : v.z ≤ max v.x (max v.y v.z) := le_trans (le_max_right _ _) (le_max_right _ _)
  have h0 : (0 : ℚ) ≤ max v.x (max v.y v.z) := le_trans hx hmx
  have h1 : (0 : ℚ) < 1 + max v.x (max v.y v.z) := by linarith
  unfold reinhardMax
  refine ⟨⟨?_, ?_, ?_⟩, ⟨?_, ?_, ?_⟩, ?_, ?_, ?_⟩
  · exact div_nonneg hx (le_of_lt h1)
  · exact div_nonneg hy (le_of_lt h1)
  · exact div_nonneg hz (le_of_lt h1)
  · exact div_le_self hx (by linarith)
  · exact div_le_self hy (by linarith)
  · exact div_le_self hz (by linarith)
  · exact (div_lt_one h1).mpr (by linarith)
  · exact (div_lt_one h1).mpr (by linarith)
  · exact (div_lt_one h1).mpr (by linarith)

@[simp] theorem Vec2.zero_x : (0 : Vec2).x = 0 := rfl

@[simp] theorem Vec2.zero_y : (0 : Vec2).y = 0 := rfl

theorem regularize_metallic (useReg : Bool) (maxR : Vec2) (m : SurfaceHit) :
    (regularize useReg maxR m).2.metallic = m.metallic := by
  unfold regularize
  split <;> rfl

theorem regularize_id (m : SurfaceHit) (useReg : Bool)
    (hrx : 0 ≤ m.roughness.x) (hry : 0 ≤ m.roughness.y) :
    (regularize useReg (0 : Vec2) m).2 = m := by
  unfold regularize
  cases useReg
  · rfl
  · have hx : max (0 : ℚ) m.roughness.x = m.roughness.x := max_eq_right hrx
    have hy : max (0 : ℚ) m.roughness.y = m.roughness.y := max_eq_right hry
    simp [Vec2.max2, hx, hy]

/-- Running the PSR loop on a state whose first hit is a mirror (classified
as such, with PSR on and a glossy-reflection sample) and whose reflected
ray hits a non-mirror wall accumulates both hit distances and ends on a
real surface. -/
theorem psrLoop_mirror_then_wall (env : RenderEnv) (fi : FrameInfo) (s0 : PsrState)
    (m1 : SurfaceHit) (smp : BsdfSample) (w : SurfaceHit)
    (hd0 : s0.psrDepth = 0) (hmr0 : s0.maxRoughness = 0) (hsky0 : s0.hitSky = false)
    (hpsr : fi.usePsr = true)
    (h1 : env.tracePrimary s0.origin s0.direction = PrimaryTraceResult.hit m1)
    (hrx : 0 ≤ m1.roughness.x) (hry : 0 ≤ m1.roughness.y)
    (hmx : m1.roughness.x ≤ mirrorRoughnessLimit) (hmm : 1 ≤ m1.metallic)
    (hsmp : ∀ xi : ℚ × ℚ × ℚ, env.bsdfSample m1 (-s0.direction) xi = smp)
    (hglossy : smp.eventType = BsdfEvent.glossyReflection)
    (h2 : env.tracePrimary (env.offsetRay (s0.origin + m1.hitT • s0.direction) m1.ng) smp.k2
        = PrimaryTraceResult.hit w)
    (hw : w.metallic < 1) :
    (psrLoop env fi s0).hitSky = false
      ∧ (psrLoop env fi s0).psrHitDist = s0.psrHitDist + m1.hitT + w.hitT := by
  have hmat1 : (regularize fi.useRegularization s0.maxRoughness m1).2 = m1 := by
    rw [hmr0]
    exact regularize_id m1 fi.useRegularization hrx hry
  have hc1 : ¬((regularize fi.useRegularization s0.maxRoughness m1).2.roughness.x
        > mirrorRoughnessLimit
      ∨ (regularize fi.useRegularization s0.maxRoughness m1).2.metallic < 1
      ∨ fi.usePsr = false) := by
    rw [hmat1]
    push_neg
    exact ⟨hmx, hmm, by simp [hpsr]⟩
  have hgl : (env.bsdfSample (regularize fi.useRegularization s0.maxRoughness m1).2
      (-s0.direction) (rand3 env s0.seed).1).eventType = BsdfEvent.glossyReflection := by
    rw [hmat1, hsmp, hglossy]
  have hb1 := psrBody_mirror env fi s0 m1 h1 hc1 hgl
  have hS1origin : (psrBody env fi s0).1.origin
      = env.offsetRay (s0.origin + m1.hitT • s0.direction) m1.ng := by
    rw [hb1]
    show (psrHitState env fi.useRegularization s0 m1).origin = _
    simp [psrHitState, hmat1]
  have hS1direction : (psrBody env fi s0).1.direction = smp.k2 := by
    rw [hb1]
    show (env.bsdfSample (regularize fi.useRegularization s0.maxRoughness m1).2
      (-s0.direction) (rand3 env s0.seed).1).k2 = _
    rw [hmat1, hsmp]
  have htr2 : env.tracePrimary (psrBody env fi s0).1.origin (psrBody env fi s0).1.direction
      = PrimaryTraceResult.hit w := by
    rw [hS1origin, hS1direction]
    exact h2
  have hb2 := psrBody_break env fi (psrBody env fi s0).1 w htr2
    (Or.inr (Or.inl (by rw [regularize_metallic]; exact hw)))
  have e1 : psrLoop env fi s0 = psrLoop env fi (psrBody env fi s0).1 := by
    apply psrLoop_cont env fi s0 (by rw [hb1])
    rw [hb1]
    show s0.psrDepth + 1 < 5
    omega
  have e2 : psrLoop env fi (psrBody env fi s0).1 = (psrBody env fi (psrBody env fi s0).1).1 :=
    psrLoop_stop env fi (psrBody env fi s0).1 (by rw [hb2])
  rw [e1, e2, hb2]
  constructor
  · show (psrBody env fi s0).1.hitSky = false
    rw [hb1]
    show s0.hitSky = false
    exact hsky0
  · show (psrBody env fi s0).1.psrHitDist + w.hitT = s0.psrHitDist + m1.hitT + w.hitT
    rw [hb1]
    show s0.psrHitDist + m1.hitT + w.hitT = s0.psrHitDist + m1.hitT + w.hitT
    rfl

/-- When the PSR loop ends on a real surface, the emitted linear view depth
is the view-space depth of the virtual world position, eye plus accumulated
mirror-chain distance along the original camera ray. -/
theorem gbufEmit_viewZ_surface (env : RenderEnv) (view prevMVP : Mat4) (useSky : Bool)
    (envIntensity : Vec3) (eyePos orgDirection : Vec3) (pixelCenter launchSize : Vec2)
    (maxDepth : ℕ) (s : PsrState) (hsky : s.hitSky = false) :
    (gbufEmit env view prevMVP useSky envIntensity eyePos orgDirection pixelCenter
        launchSize maxDepth s).viewZ
      = -(view.mulVec (Vec4.point (eyePos + s.psrHitDist • orgDirection))).z := by
  unfold gbufEmit
  rw [if_neg (by simp [hsky])]

/-- A degenerate but fully concrete scene and math environment, used to
evaluate the theorems at explicit inputs. -/
def trivialEnv : RenderEnv :=
  { tracePrimary := fun _ _ => PrimaryTraceResult.miss 0
    offsetRay := fun p _ => p
    rand := fun s => (0, s + 1)
    bsdfSample := fun _ _ _ => ⟨BsdfEvent.absorb, 0, 0, 0⟩
    bsdfEvaluate := fun _ _ _ _ => ⟨0, 0, 0⟩
    samplePhysicalSky := fun _ => ⟨⟨0, 0, 1⟩, 0, 0⟩
    environmentSample := fun _ => ⟨⟨0, 0, 1⟩, 0, 0⟩
    shadowHitT := fun _ _ => 0
    secondaryHit := fun _ _ => none
    envEvalSecondary := fun _ _ => (0, 0)
    sqrtQ := fun q => q }

/-- Identity 4x4 matrix, for concrete frame parameters. -/
def Mat4.idMat : Mat4 := ⟨1, 0, 0, 0, 0, 1, 0, 0, 0, 0, 1, 0, 0, 0, 0, 1⟩

/-- Concrete frame parameters used by the witnesses. -/
def trivialFrame : FrameInfo :=
  { view := Mat4.idMat
    prevMVP := Mat4.idMat
    envIntensity := 1
    useSky := true
    usePsr := true
    useRegularization := false }

/-- A concrete perfect-mirror surface: zero roughness, metallic 1, facing
the camera along -z, two units away. -/
def mirrorHit : SurfaceHit :=
  { hitT := 2, roughness := ⟨0, 0⟩, metallic := 1, emissive := 0, baseColor := ⟨1, 1, 1⟩,
    specularColor := ⟨1, 1, 1⟩, opacity := 1, n := ⟨0, 0, -1⟩, ng := ⟨0, 0, -1⟩ }

/-- A concrete diffuse wall: rough, non-metallic, three units along the
reflected ray. -/
def wallHit : SurfaceHit :=
  { hitT := 3, roughness := ⟨(1 : ℚ) / 2, (1 : ℚ) / 2⟩, metallic := 0, emissive := 0,
    baseColor := ⟨1, 0, 0⟩, specularColor := 0, opacity := 1, n := ⟨-1, 0, 0⟩, ng := ⟨-1, 0, 0⟩ }

/-- The deterministic specular-reflection sample returned at the concrete
mirror: glossy reflection into the +x direction with unit bsdf_over_pdf. -/
def mirrorSample : BsdfSample := ⟨BsdfEvent.glossyReflection, 1, ⟨1, 0, 0⟩, 0⟩

/-- A concrete scene: camera rays along +z hit the mirror, the reflected
+x rays hit the wall. -/
def envMirrorWall : RenderEnv :=
  { trivialEnv with
    tracePrimary := fun _ d =>
      if d = (⟨0, 0, 1⟩ : Vec3) then PrimaryTraceResult.hit mirrorHit
      else PrimaryTraceResult.hit wallHit
    bsdfSample := fun _ _ _ => mirrorSample }

/-- A concrete scene whose every primary ray hits the diffuse wall. -/
def envWallOnly : RenderEnv :=
  { trivialEnv with tracePrimary := fun _ _ => PrimaryTraceResult.hit wallHit }

end DlssSample

section ClaimTheorems

open DlssSample DlssApplet DlssRRWrapper

/-- C1: for every scene (RenderEnv) and every pixel, the PSR
mirror-following loop terminates (psrLoop is a total function) and traces
between one and five rays: each do-while iteration traces exactly one ray,
the depth counter is incremented only when a mirror-classified hit
continues the chain, and the loop stops as soon as the counter reaches 5, a
non-mirror surface is hit, PSR is disabled, or the ray misses — for every
possible tracePrimary, including scenes of mutually facing mirrors. -/
theorem C1_psr_loop_terminates_within_bound (env : RenderEnv) (fi : FrameInfo)
    (eyePos orgDirection : Vec3) (seed0 : ℕ) :
    1 ≤ (psrMain env fi eyePos orgDirection seed0).traces
      ∧ (psrMain env fi eyePos orgDirection seed0).traces ≤ 5 := by
  constructor
  · have h := psrLoop_traces_lower env fi 5 (psrInit eyePos orgDirection seed0) (by rfl)
    simpa [psrMain, psrInit] using h
  · have h := psrLoop_traces_upper env fi 5 (psrInit eyePos orgDirection seed0)
      (by rfl) (by simp [psrInit])
    simpa [psrMain, psrInit] using h

/-- C2: when the primary camera ray misses all geometry without passing
through any mirror, the linear-view-depth buffer receives the sentinel
65504, the diffuse-albedo buffer receives the reinhardMax-compressed
environment radiance — which is componentwise non-negative, no larger than
the raw radiance, and strictly below 1, never the raw unbounded HDR
value — and the specular-albedo and normal/roughness buffers receive
zero. -/
theorem C2_direct_sky_miss_outputs (env : RenderEnv) (fi : FrameInfo)
    (eyePos orgDirection : Vec3) (pixelCenter launchSize : Vec2)
    (maxDepth seed0 : ℕ) (envRad : Vec3)
    (hm : env.tracePrimary eyePos orgDirection = PrimaryTraceResult.miss envRad)
    (hx : 0 ≤ envRad.x) (hy : 0 ≤ envRad.y) (hz : 0 ≤ envRad.z) :
    (mainShader env fi eyePos orgDirection pixelCenter launchSize maxDepth seed0).viewZ
        = DLSS_INF_DISTANCE
      ∧ (mainShader env fi eyePos orgDirection pixelCenter launchSize maxDepth seed0).specAlbedo
        = 0
      ∧ (mainShader env fi eyePos orgDirection pixelCenter launchSize maxDepth
          seed0).normalRoughness = 0
      ∧ (mainShader env fi eyePos orgDirection pixelCenter launchSize maxDepth
          seed0).baseColorMetalness.xyz = reinhardMax envRad
      ∧ (0 ≤ (reinhardMax envRad).x ∧ 0 ≤ (reinhardMax envRad).y ∧ 0 ≤ (reinhardMax envRad).z)
      ∧ ((reinhardMax envRad).x ≤ envRad.x ∧ (reinhardMax envRad).y ≤ envRad.y
          ∧ (reinhardMax envRad).z ≤ envRad.z)
      ∧ ((reinhardMax envRad).x < 1 ∧ (reinhardMax envRad).y < 1
          ∧ (reinhardMax envRad).z < 1) := by
  have hpsr := psrMain_miss env fi eyePos orgDirection seed0 envRad hm
  have hb := reinhardMax_bounds envRad hx hy hz
  unfold mainShader
  rw [hpsr]
  refine ⟨?_, ?_, ?_, ?_, hb.1, hb.2.1, hb.2.2⟩ <;>
    simp [gbufEmit, psrInit]

/-- C3: when the PSR chain ends on a real surface, the linear-view-depth
write is the view-space depth of the virtual world position, eye plus the
sum of all mirror-chain hit distances along the original camera-ray
direction; in particular, for a perfect mirror in front of a diffuse wall
it is computed from eye-to-mirror distance plus mirror-to-wall distance,
not the eye-to-mirror distance alone. -/
theorem C3_view_depth_is_virtual_depth (env : RenderEnv) (fi : FrameInfo)
    (eyePos orgDirection : Vec3) (pixelCenter launchSize : Vec2) (maxDepth seed0 : ℕ)
    (m1 : SurfaceHit) (smp : BsdfSample) (w : SurfaceHit)
    (hpsr : fi.usePsr = true)
    (h1 : env.tracePrimary eyePos orgDirection = PrimaryTraceResult.hit m1)
    (hrx : 0 ≤ m1.roughness.x) (hry : 0 ≤ m1.roughness.y)
    (hmx : m1.roughness.x ≤ mirrorRoughnessLimit) (hmm : 1 ≤ m1.metallic)
    (hsmp : ∀ xi : ℚ × ℚ × ℚ, env.bsdfSample m1 (-orgDirection) xi = smp)
    (hglossy : smp.eventType = BsdfEvent.glossyReflection)
    (h2 : env.tracePrimary (env.offsetRay (eyePos + m1.hitT • orgDirection) m1.ng) smp.k2
        = PrimaryTraceResult.hit w)
    (hw : w.metallic < 1) :
    (mainShader env fi eyePos orgDirection pixelCenter launchSize maxDepth seed0).viewZ
        = -(fi.view.mulVec (Vec4.point (eyePos + (m1.hitT + w.hitT) • orgDirection))).z
      ∧ (psrMain env fi eyePos orgDirection seed0).psrHitDist = m1.hitT + w.hitT := by
  have hlw := psrLoop_mirror_then_wall env fi (psrInit eyePos orgDirection seed0) m1 smp w
    rfl rfl rfl hpsr h1 hrx hry hmx hmm hsmp hglossy h2 hw
  have hdist : (psrMain env fi eyePos orgDirection seed0).psrHitDist = m1.hitT + w.hitT := by
    unfold psrMain
    rw [hlw.2]
    show (0 : ℚ) + m1.hitT + w.hitT = m1.hitT + w.hitT
    ring
  have hsky : (psrMain env fi eyePos orgDirection seed0).hitSky = false := by
    unfold psrMain
    exact hlw.1
  refine ⟨?_, hdist⟩
  unfold mainShader
  rw [gbufEmit_viewZ_surface _ _ _ _ _ _ _ _ _ _ _ hsky]
  rw [hdist]

/-- C3 witness: eye at the origin looking along +z at the concrete mirror
(2 units) backed by the wall (3 units along the reflected ray): the stored
view depth is that of the virtual point at distance 2 + 3 = 5, not 2. -/
theorem C3_view_depth_is_virtual_depth_witness :
    (mainShader envMirrorWall trivialFrame 0 ⟨0, 0, 1⟩ ⟨0, 0⟩ ⟨1, 1⟩ 2 0).viewZ
      = -(trivialFrame.view.mulVec
          (Vec4.point ((0 : Vec3) + (mirrorHit.hitT + wallHit.hitT) • ⟨0, 0, 1⟩))).z :=
  (C3_view_depth_is_virtual_depth envMirrorWall trivialFrame 0 ⟨0, 0, 1⟩ ⟨0, 0⟩ ⟨1, 1⟩ 2 0
    mirrorHit mirrorSample wallHit
    rfl
    (by simp [envMirrorWall])
    (by norm_num [mirrorHit])
    (by norm_num [mirrorHit])
    (by norm_num [mirrorHit, mirrorRoughnessLimit, MICROFACET_MIN_ROUGHNESS])
    (by norm_num [mirrorHit])
    (fun _ => rfl)
    rfl
    (by norm_num [envMirrorWall, trivialEnv, mirrorSample, mirrorHit])
    (by norm_num [wallHit])).1

/-- C4: when the first surface hit is not mirror-classified, the whole
per-pixel output with PSR enabled is identical to the output with PSR
disabled: the loop exits on its first iteration with unit throughput,
identity composed mirror transform, zero accumulated mirror radiance, one
ray traced, and accumulated distance equal to the first hit distance. -/
theorem C4_psr_noop_on_first_nonmirror (env : RenderEnv) (fi : FrameInfo)
    (eyePos orgDirection : Vec3) (pixelCenter launchSize : Vec2) (maxDepth seed0 : ℕ)
    (m : SurfaceHit)
    (h1 : env.tracePrimary eyePos orgDirection = PrimaryTraceResult.hit m)
    (hnm : (regularize fi.useRegularization 0 m).2.roughness.x > mirrorRoughnessLimit
      ∨ (regularize fi.useRegularization 0 m).2.metallic < 1) :
    mainShader env { fi with usePsr := true } eyePos orgDirection pixelCenter launchSize
        maxDepth seed0
      = mainShader env { fi with usePsr := false } eyePos orgDirection pixelCenter launchSize
        maxDepth seed0
    ∧ (psrMain env { fi with usePsr := true } eyePos orgDirection seed0).psrThroughput = 1
    ∧ (psrMain env { fi with usePsr := true } eyePos orgDirection seed0).psrMirror = Mat3.id
    ∧ (psrMain env { fi with usePsr := true } eyePos orgDirection seed0).psrDirectRadiance = 0
    ∧ (psrMain env { fi with usePsr := true } eyePos orgDirection seed0).psrHitDist = m.hitT
    ∧ (psrMain env { fi with usePsr := true } eyePos orgDirection seed0).traces = 1 := by
  have hbT := psrBody_break env { fi with usePsr := true } (psrInit eyePos orgDirection seed0)
    m h1 (hnm.imp id Or.inl)
  have hbF := psrBody_break env { fi with usePsr := false } (psrInit eyePos orgDirection seed0)
    m h1 (hnm.imp id Or.inl)
  have hT : psrMain env { fi with usePsr := true } eyePos orgDirection seed0
      = psrHitState env fi.useRegularization (psrInit eyePos orgDirection seed0) m := by
    unfold psrMain
    rw [psrLoop_stop _ _ _ (by rw [hbT]), hbT]
  have hF : psrMain env { fi with usePsr := false } eyePos orgDirection seed0
      = psrHitState env fi.useRegularization (psrInit eyePos orgDirection seed0) m := by
    unfold psrMain
    rw [psrLoop_stop _ _ _ (by rw [hbF]), hbF]
  refine ⟨?_, ?_, ?_, ?_, ?_, ?_⟩
  · unfold mainShader
    rw [hT, hF]
  · rw [hT]; rfl
  · rw [hT]; rfl
  · rw [hT]; rfl
  · rw [hT]
    show (0 : ℚ) + m.hitT = m.hitT
    ring
  · rw [hT]; rfl

/-- C4 witness: in the wall-only scene the full per-pixel output is the
same with PSR on and PSR off. -/
theorem C4_psr_noop_on_first_nonmirror_witness :
    mainShader envWallOnly { trivialFrame with usePsr := true } 0 ⟨0, 0, 1⟩ ⟨0, 0⟩ ⟨1, 1⟩ 2 0
      = mainShader envWallOnly { trivialFrame with usePsr := false } 0 ⟨0, 0, 1⟩ ⟨0, 0⟩
        ⟨1, 1⟩ 2 0 :=
  (C4_psr_noop_on_first_nonmirror envWallOnly trivialFrame 0 ⟨0, 0, 1⟩ ⟨0, 0⟩ ⟨1, 1⟩ 2 0
    wallHit rfl (Or.inr (by norm_num [regularize, trivialFrame, wallHit]))).1

/-- C5: in HdrContrib, a sampled light direction at or below the shading
plane, a non-positive light-sampling pdf, or a non-positive BSDF pdf yields
exactly zero radiance (the function is total, so no exception is possible);
and a non-zero radiance is returned only when the shadow ray reports the
environment sentinel, i.e. is unoccluded to infinity. -/
theorem C5_direct_light_rejections (env : RenderEnv) (useSky : Bool) (envIntensity : Vec3)
    (pbrMat : SurfaceHit) (startPos toEye : Vec3) (seed : ℕ) :
    ((Vec3.dot (hdrLightSample env useSky (rand3 env seed).1).direction pbrMat.n ≤ 0
        ∨ (hdrLightSample env useSky (rand3 env seed).1).pdf ≤ 0
        ∨ (env.bsdfEvaluate pbrMat toEye
            (hdrLightSample env useSky (rand3 env seed).1).direction (rand3 env seed).1).pdf ≤ 0)
      → (HdrContrib env useSky envIntensity pbrMat startPos toEye seed).1 = 0)
    ∧ ((HdrContrib env useSky envIntensity pbrMat startPos toEye seed).1 ≠ 0
      → |env.shadowHitT startPos (hdrLightSample env useSky (rand3 env seed).1).direction|
          = DLSS_INF_DISTANCE) := by
  unfold HdrContrib
  dsimp only
  constructor
  · intro h
    split_ifs with h1 h2 h3
    · exfalso
      rcases h with h | h | h
      · linarith [h1.1]
      · linarith [h1.2]
      · linarith [h2]
    · rfl
    · rfl
    · rfl
  · intro h
    split_ifs at h with h1 h2 h3
    · exact h3
    · exact absurd rfl h
    · exact absurd rfl h
    · exact absurd rfl h

/-- C5 witness: in the concrete environment the physical-sky sample has pdf
zero, so the direct contribution is exactly zero. -/
theorem C5_direct_light_rejections_witness :
    (HdrContrib trivialEnv true 1 SurfaceHit.init 0 0 0).1 = 0 :=
  (C5_direct_light_rejections trivialEnv true 1 SurfaceHit.init 0 0 0).1
    (Or.inr (Or.inl (by norm_num [hdrLightSample, rand3, trivialEnv])))

/-- C6: a secondary-path miss runs secondary.rmiss, which stores the
negated sentinel -65504 as the hit distance and the MIS-weighted
environment radiance — weighted by the power heuristic of the current
segment's BSDF pdf against the environment pdf — in the payload
contribution; the indirect integrator loop then merges that contribution
and terminates because the hit distance is negative, so a miss is always
the final segment of a path. -/
theorem C6_secondary_miss_terminal (env : RenderEnv) (useSky : Bool) (envIntensity : Vec3)
    (firstEvent : BsdfEvent) (maxDepth depth : ℕ) (radiance throughput : Vec3)
    (pathLength : ℚ) (p : PayloadSecondary)
    (hmiss : env.secondaryHit p.rayOrigin p.rayDirection = none)
    (hd : depth < maxDepth) :
    (traceSecondary env useSky envIntensity { p with hitT := DLSS_INF_DISTANCE }).hitT
        = -DLSS_INF_DISTANCE
      ∧ (traceSecondary env useSky envIntensity { p with hitT := DLSS_INF_DISTANCE }).contrib
        = powerHeuristic p.bsdfPDF (env.envEvalSecondary useSky p.rayDirection).2
            • ((env.envEvalSecondary useSky p.rayDirection).1 * envIntensity)
      ∧ indirectLoopGo env useSky envIntensity firstEvent maxDepth depth radiance throughput
            pathLength p
        = (radiance
            + (traceSecondary env useSky envIntensity
                { p with hitT := DLSS_INF_DISTANCE }).contrib * throughput,
           (if depth = 1 ∧ firstEvent = BsdfEvent.glossyReflection
            then DLSS_INF_DISTANCE else pathLength),
           traceSecondary env useSky envIntensity { p with hitT := DLSS_INF_DISTANCE }) := by
  have ht : traceSecondary env useSky envIntensity { p with hitT := DLSS_INF_DISTANCE }
      = secondaryMissShader envIntensity
          (env.envEvalSecondary useSky p.rayDirection).1
          (env.envEvalSecondary useSky p.rayDirection).2
          { p with hitT := DLSS_INF_DISTANCE } := by
    simp [traceSecondary, hmiss]
  refine ⟨by rw [ht]; rfl, by rw [ht]; rfl, ?_⟩
  rw [indirectLoopGo]
  rw [dif_pos hd]
  rw [ht]
  have hneg : (secondaryMissShader envIntensity
      (env.envEvalSecondary useSky p.rayDirection).1
      (env.envEvalSecondary useSky p.rayDirection).2
      { p with hitT := DLSS_INF_DISTANCE }).hitT = -DLSS_INF_DISTANCE := rfl
  rw [if_pos (by rw [hneg]; norm_num [DLSS_INF_DISTANCE])]
  rw [hneg]
  have habs : |(-DLSS_INF_DISTANCE : ℚ)| = DLSS_INF_DISTANCE := by
    norm_num [DLSS_INF_DISTANCE]
  rw [habs]

/-- A concrete secondary payload for evaluating the theorems. -/
def witnessPayload : PayloadSecondary :=
  { contrib := 0, weight := 1, hitT := 0, rayOrigin := 0, rayDirection := ⟨0, 0, 1⟩,
    bsdfPDF := 1, seed := 0, maxRoughness := ⟨0, 0⟩ }

/-- C6 witness: a concrete environment with no secondary geometry; the
single secondary segment is a miss and stores the negated sentinel. -/
theorem C6_secondary_miss_terminal_witness :
    (traceSecondary { trivialEnv with envEvalSecondary := fun _ _ => (⟨1, 1, 1⟩, 2) } true 1
        { witnessPayload with hitT := DLSS_INF_DISTANCE }).hitT = -DLSS_INF_DISTANCE :=
  (C6_secondary_miss_terminal _ true 1 BsdfEvent.diffuse 2 1 0 1 0
    witnessPayload rfl (by norm_num)).1

/-- C2 witness: a concrete scene whose primary rays all miss with
environment radiance (2, 3, 4); the view-depth output at a pixel is the
sentinel. -/
theorem C2_direct_sky_miss_outputs_witness :
    (mainShader { trivialEnv with tracePrimary := fun _ _ => PrimaryTraceResult.miss ⟨2, 3, 4⟩ }
        trivialFrame 0 ⟨0, 0, 1⟩ ⟨0, 0⟩ ⟨1, 1⟩ 2 0).viewZ = DLSS_INF_DISTANCE :=
  (C2_direct_sky_miss_outputs _ trivialFrame 0 ⟨0, 0, 1⟩ ⟨0, 0⟩ ⟨1, 1⟩ 2 0 ⟨2, 3, 4⟩
    rfl (by norm_num) (by norm_num) (by norm_num)).1

/-- C8: the denoise operation passes the host's column-major right-multiply
view and projection matrices to the denoiser unmodified, and this is
algebraically valid because the conversion to the denoiser's row-major
left-multiply convention is two successive transposes, whose composition is
the identity on every 4x4 matrix. -/
theorem C8_matrix_passthrough_valid (modelView projection : Mat4) :
    denoisePassedViewMatrix modelView = Mat4.transpose (Mat4.transpose modelView)
      ∧ denoisePassedProjMatrix projection = Mat4.transpose (Mat4.transpose projection) := by
  constructor
  · cases modelView
    rfl
  · cases projection
    rfl

/-- C10: on every window resize the requested output resolution is clamped
componentwise to a floor of 256 x 256 (and otherwise left unchanged), so the
denoiser's output size is never below 256 in either dimension. -/
theorem C10_output_size_floor (w h : ℕ) :
    256 ≤ (onResizeOutputSize w h).1 ∧ 256 ≤ (onResizeOutputSize w h).2
      ∧ (onResizeOutputSize w h).1 = max 256 w ∧ (onResizeOutputSize w h).2 = max 256 h :=
  ⟨Nat.le_max_left _ _, Nat.le_max_left _ _, rfl, rfl⟩

theorem renderSeq_from_zero (k : ℕ) : renderSeq 0 k = k := by
  induction k with
  | zero => rfl
  | succ k ih => simp [renderSeq, onRenderFrame, ih]

/-- C7: after a render-resolution change the frame counter is 0, so the very
next rendered frame passes reset = true to the denoiser; every later frame
(the counter having been incremented once per frame) passes reset = false
until another reset-triggering event occurs. -/
theorem C7_reset_raised_exactly_once (m k : ℕ) (hk : 1 ≤ k) :
    (onRenderFrame (onRenderResolutionChange m)).2 = true
      ∧ (onRenderFrame (renderSeq (onRenderResolutionChange m) k)).2 = false := by
  constructor
  · rfl
  · simp only [onRenderResolutionChange, resetFrame, renderSeq_from_zero, onRenderFrame]
    simp
    omega

/-- C7 witness: a render-resolution change at frame counter 7; the next
frame raises the reset flag and the third frame after it does not. -/
theorem C7_reset_raised_exactly_once_witness :
    (onRenderFrame (onRenderResolutionChange 7)).2 = true
      ∧ (onRenderFrame (renderSeq (onRenderResolutionChange 7) 3)).2 = false :=
  C7_reset_raised_exactly_once 7 3 (by norm_num)

/-- C9 counterexample: the frame index is not monotone across every session
of frames. Starting at 0, render one frame (counter 1) and then let any
reset-triggering event run resetFrame (counter 0): the observed counter
sequence 0, 1, 0 decreases, and the reset mutation is not a per-frame
increment. -/
theorem C9_counterexample :
    ¬ List.Chain' (fun a b => a ≤ b)
        (appTrace 0 [AppEvent.render, AppEvent.reset]) := by
  have h : appTrace 0 [AppEvent.render, AppEvent.reset] = [0, 1, 0] := rfl
  rw [h]
  intro hc
  rcases List.chain'_cons.mp hc with ⟨h1, hc2⟩
  rcases List.chain'_cons.mp hc2 with ⟨h2, hc3⟩
  omega

/-- C9 amended: between reset-triggering events the frame index is mutated
exactly once per completed frame, incremented by one, hence monotonically
increasing over any run of rendered frames; a reset event sets it to 0. -/
theorem C9_frame_index_monotone_between_resets (m k : ℕ) :
    appRun m (List.replicate k AppEvent.render) = m + k
      ∧ m ≤ appRun m (List.replicate k AppEvent.render)
      ∧ appStep m AppEvent.reset = 0 := by
  have key : ∀ n j : ℕ, appRun j (List.replicate n AppEvent.render) = j + n := by
    intro n
    induction n with
    | zero => intro j; rfl
    | succ n ih =>
      intro j
      simp only [List.replicate, appRun, appStep, onRenderFrame]
      rw [ih]
      omega
  refine ⟨key k m, ?_, rfl⟩
  rw [key k m]
  omega

end ClaimTheorems
